import Mathlib

/-!
Verification of the data-quality jobs (`jobs/data_quality.py`) of the
nautobot demo-git-datasource repository.

The module defines five job classes (VerifyHostnames, VerifyPlatform,
VerifyPrimaryIP, VerifyHasRack, VerifyCircuitTermination) plus two helpers
(`normalize`, `filter_devices`).  Each job iterates over inventory objects
and emits log records; none of them writes to the inventory.  We embed the
inventory data model, the log-record stream, and each `run` method as pure
Lean functions; Python attribute lookups that can hit `None` (and would
raise `TypeError`/`AttributeError`) are embedded with `Option` fields and
`Except`-valued runs that stop at the first raised error, keeping the
records emitted before it.
-/

namespace DataQuality

/-- Severity of an emitted log record (`logger.debug` / `logger.info` /
`logger.warning` in the source). -/
inductive Severity where
  | debug
  | info
  | warning
  deriving DecidableEq, Repr

/-- One log record: severity, the rendered message text (Python's lazy
`%`-formatting applied), and the subject reference passed via
`extra={"obj": ...}` (`none` for records logged without a subject, such as
the hostname preamble and the filter diagnostics). -/
structure LogRecord where
  severity : Severity
  message : String
  obj : Option Nat
  deriving DecidableEq, Repr

/-- The Python exceptions the module can raise while running a job:
`re.search(pattern, None)` raises `TypeError`; attribute access on `None`
(e.g. `None.path`, `None.name`) raises `AttributeError`. -/
inductive JobError where
  | typeError
  | attributeError
  deriving DecidableEq, Repr

/-! ## Regular expressions

`VerifyHostnames.run` calls `re.search(hostname_regex, device.name)`.
We embed the fragment of Python regular expressions that the job's
documented parameters use (literal characters, `.`, `*`, concatenation,
alternation, and an optional leading `^` anchor), with the standard
Brzozowski-derivative recognizer, and `re.search`'s unanchored semantics:
the pattern may match starting at any position of the subject string. -/

/-- Regular-expression abstract syntax. -/
inductive Regex where
  | emp : Regex
  | eps : Regex
  | chr : Char → Regex
  | dot : Regex
  | cat : Regex → Regex → Regex
  | alt : Regex → Regex → Regex
  | star : Regex → Regex
  deriving DecidableEq, Repr

/-- Does the regex accept the empty string? -/
def nullable : Regex → Bool
  | .emp => false
  | .eps => true
  | .chr _ => false
  | .dot => false
  | .cat a b => nullable a && nullable b
  | .alt a b => nullable a || nullable b
  | .star _ => true

/-- Brzozowski derivative of a regex with respect to one character. -/
def rderiv (r : Regex) (c : Char) : Regex :=
  match r with
  | .emp => .emp
  | .eps => .emp
  | .chr a => if a = c then .eps else .emp
  | .dot => .eps
  | .cat a b =>
      if nullable a then .alt (.cat (rderiv a c) b) (rderiv b c)
      else .cat (rderiv a c) b
  | .alt a b => .alt (rderiv a c) (rderiv b c)
  | .star a => .cat (rderiv a c) (.star a)

/-- Whole-string match: the regex accepts exactly the full character list. -/
def rmatchFull (r : Regex) (s : List Char) : Bool :=
  nullable (s.foldl rderiv r)

/-- Does the regex accept some (possibly empty) leading segment of `s`? -/
def matchPref (r : Regex) : List Char → Bool
  | [] => nullable r
  | c :: cs => nullable r || matchPref (rderiv r c) cs

/-- Does the regex accept some segment of `s` starting anywhere?  This is
the unanchored search that Python's `re.search` performs. -/
def searchSomewhere (r : Regex) : List Char → Bool
  | [] => matchPref r []
  | c :: cs => matchPref r (c :: cs) || searchSomewhere r cs

/-- The `hostname_regex` job parameter: its textual source (echoed by the
preamble log line) plus its parsed form — an optional leading `^` anchor
(which restricts `re.search` to matches starting at position 0) and the
body regex. -/
structure RegexParam where
  source : String
  anchored : Bool
  r : Regex
  deriving Repr

/-- `re.search(pattern, s)` as a Boolean: an anchored pattern must match a
leading segment of `s`; otherwise a match may start at any position. -/
def reSearch (p : RegexParam) (s : String) : Bool :=
  if p.anchored then matchPref p.r s.toList
  else searchSomewhere p.r s.toList

/-- The default `hostname_regex` value `".*"` declared on the
`VerifyHostnames` job (`default = ".*"`). -/
def defaultHostnameRegex : RegexParam :=
  { source := ".*", anchored := false, r := .star .dot }

/-- The example pattern `"^sw-"` from the specification. -/
def swDashRegex : RegexParam :=
  { source := "^sw-", anchored := true,
    r := .cat (.chr 's') (.cat (.chr 'w') (.chr '-')) }

/-! ## Inventory data model

External entities owned by the host inventory system, read-only here.
`Option` marks fields whose Python counterpart can be `None` (or, for
`Selector.name`, absent, as probed by `hasattr`). -/

/-- A `VirtualChassis` reference: carries the `master_id` of its designated
master device (nullable in the host schema). -/
structure VirtualChassis where
  master_id : Option Nat
  deriving DecidableEq, Repr

/-- A device of the inventory.  `location`, `role` and `device_type` hold
the identifiers the filter's `__in` lookups compare against. -/
structure Device where
  id : Nat
  name : Option String
  platform : Option String
  primary_ip : Option String
  rack : Option String
  virtual_chassis : Option VirtualChassis
  location : Nat
  role : Nat
  device_type : Nat
  deriving DecidableEq, Repr

/-- An element of a selector query set (a Location, Role or DeviceType):
`normalize` uses its `name` when that attribute exists, else its `slug`. -/
structure Selector where
  id : Nat
  name : Option String
  slug : String
  deriving DecidableEq, Repr

/-- An IP address object assigned to an interface; `address` is its
rendered `str(...)` form. -/
structure IPAddress where
  address : String
  deriving DecidableEq, Repr

/-- The destination interface of a resolved circuit path: its `name`, the
device it belongs to (nullable), and its assigned IP addresses in the
query-set order `.first()` observes. -/
structure Destination where
  name : String
  device : Option Device
  ip_addresses : List IPAddress
  deriving DecidableEq, Repr

/-- A resolved circuit path, ending at a destination interface. -/
structure CircuitPath where
  destination : Destination
  deriving DecidableEq, Repr

/-- The A-side termination of a circuit; `path` is `None` when the circuit
is unterminated. -/
structure Termination where
  path : Option CircuitPath
  deriving DecidableEq, Repr

/-- A circuit; `termination_a` is `None` when no A-side termination object
exists at all. -/
structure Circuit where
  id : Nat
  termination_a : Option Termination
  deriving DecidableEq, Repr

/-- The read-only inventory snapshot a job run observes. -/
structure Inventory where
  devices : List Device
  circuits : List Circuit
  deriving DecidableEq, Repr

/-! ## Helpers: `normalize` and `filter_devices` -/

/-- `normalize(query_set)`: the comma-joined list of each element's `name`
when it has one, else its `slug`. -/
def normalize (query_set : List Selector) : String :=
  String.intercalate ", "
    (query_set.map (fun element =>
      match element.name with
      | some n => n
      | none => element.slug))

/-- Python truthiness of an optional query-set parameter: `None` and an
empty query set are both falsy, so `if location:` skips them alike. -/
def selTruthy : Option (List Selector) → Bool
  | none => false
  | some l => !l.isEmpty

/-- The identifiers of a selector query set (`[]` for an absent one). -/
def selIds : Option (List Selector) → List Nat
  | none => []
  | some l => l.map Selector.id

/-- `filter_devices(location, device_role, device_type)`: starting from all
devices, each truthy selector first logs one `debug` diagnostic naming its
members, then narrows the collection to devices whose corresponding field
is in the selector (`location__in` / `role__in` / `device_type__in`).
Returns the emitted diagnostics and the resulting device list. -/
def filter_devices (devices : List Device)
    (location device_role device_type : Option (List Selector)) :
    List LogRecord × List Device :=
  let step1 :=
    if selTruthy location then
      ([⟨.debug, "Filter locations: " ++ normalize (location.getD []), none⟩],
       devices.filter (fun d => (selIds location).contains d.location))
    else ([], devices)
  let step2 :=
    if selTruthy device_role then
      (step1.1 ++
        [⟨.debug, "Filter device roles: " ++ normalize (device_role.getD []), none⟩],
       step1.2.filter (fun d => (selIds device_role).contains d.role))
    else step1
  let step3 :=
    if selTruthy device_type then
      (step2.1 ++
        [⟨.debug, "Filter device types: " ++ normalize (device_type.getD []), none⟩],
       step2.2.filter (fun d => (selIds device_type).contains d.device_type))
    else step2
  step3

/-! ## Per-item classification of each rule -/

/-- Runs a per-item classifier over a collection the way a Python `for`
loop over a logging body behaves: records accumulate in order; the first
raised error aborts the loop, keeping the records emitted before it. -/
def runItems (f : α → Except JobError (List LogRecord)) :
    List α → List LogRecord × Option JobError
  | [] => ([], none)
  | x :: xs =>
    match f x with
    | .error e => ([], some e)
    | .ok rs =>
      let rest := runItems f xs
      (rs ++ rest.1, rest.2)

/-- The loop body of `VerifyHostnames.run`: `re.search(hostname_regex,
device.name)` — a `TypeError` if the device has no name — then one `info`
record on a match, else one `warning` record. -/
def verifyHostnameDevice (p : RegexParam) (d : Device) :
    Except JobError (List LogRecord) :=
  match d.name with
  | none => .error .typeError
  | some n =>
    if reSearch p n then .ok [⟨.info, "Hostname is compliant.", some d.id⟩]
    else .ok [⟨.warning, "Hostname is not compliant.", some d.id⟩]

/-- The loop body of `VerifyPlatform.run`. -/
def verifyPlatformDevice (d : Device) : List LogRecord :=
  match d.platform with
  | some _ => [⟨.info, "Platform is defined.", some d.id⟩]
  | none => [⟨.warning, "Platform is not defined.", some d.id⟩]

/-- The loop body of `VerifyPrimaryIP.run`: a member of a virtual chassis
that is not its master is skipped (`continue`) with no record; otherwise
one record reports whether a primary IP is set. -/
def verifyPrimaryIPDevice (d : Device) : List LogRecord :=
  match d.virtual_chassis with
  | some vc =>
    if ¬ (vc.master_id = some d.id) then []
    else
      match d.primary_ip with
      | none => [⟨.warning, "No primary IP is defined", some d.id⟩]
      | some ip => [⟨.info, "Primary IP is defined (" ++ ip ++ ")", some d.id⟩]
  | none =>
    match d.primary_ip with
    | none => [⟨.warning, "No primary IP is defined", some d.id⟩]
    | some ip => [⟨.info, "Primary IP is defined (" ++ ip ++ ")", some d.id⟩]

/-- The loop body of `VerifyHasRack.run`. -/
def verifyHasRackDevice (d : Device) : List LogRecord :=
  match d.rack with
  | none => [⟨.warning, "Device is not inside a rack", some d.id⟩]
  | some r => [⟨.info, "Device is in rack (" ++ r ++ ")", some d.id⟩]

/-- The loop body of `VerifyCircuitTermination.run`: `circuit.termination_a`
is dereferenced unconditionally (an `AttributeError` when it is `None`);
a termination without a path yields one `warning` and `continue`; otherwise
`path.destination.device.name` is read (an `AttributeError` when the
destination has no device; a `None` name renders as `"None"`) before the
`info` record, and the IP-assignment check appends one more record. -/
def verifyCircuitOne (c : Circuit) : Except JobError (List LogRecord) :=
  match c.termination_a with
  | none => .error .attributeError
  | some termination =>
    match termination.path with
    | none => .ok [⟨.warning, "Circuit is not terminated", some c.id⟩]
    | some path =>
      let interface := path.destination.name
      match path.destination.device with
      | none => .error .attributeError
      | some dev =>
        let devName := match dev.name with
          | some n => n
          | none => "None"
        let passRec : LogRecord :=
          ⟨.info, "Circuit terminated on " ++ devName ++ ":" ++ interface,
           some c.id⟩
        match path.destination.ip_addresses with
        | [] => .ok [passRec, ⟨.warning, "IP address is not assigned", some c.id⟩]
        | ip :: _ =>
          .ok [passRec,
               ⟨.info, "IP address is assigned (" ++ ip.address ++ ")", some c.id⟩]

/-! ## The five `run` methods -/

/-- `VerifyHostnames.run`: the preamble `info` record echoing the regex,
the filter diagnostics, then one record per filtered device (aborting on a
raised error). -/
def VerifyHostnames_run (devices : List Device)
    (location device_role device_type : Option (List Selector))
    (hostname_regex : RegexParam) : List LogRecord × Option JobError :=
  let preamble : LogRecord :=
    ⟨.info, "Using the regular expression: " ++ hostname_regex.source, none⟩
  let fd := filter_devices devices location device_role device_type
  let body := runItems (verifyHostnameDevice hostname_regex) fd.2
  (preamble :: fd.1 ++ body.1, body.2)

/-- `VerifyPlatform.run`: the filter diagnostics, then one record per
filtered device. -/
def VerifyPlatform_run (devices : List Device)
    (location device_role device_type : Option (List Selector)) :
    List LogRecord :=
  let fd := filter_devices devices location device_role device_type
  fd.1 ++ fd.2.flatMap verifyPlatformDevice

/-- `VerifyPrimaryIP.run`: the filter diagnostics, then at most one record
per filtered device (none for non-master chassis members). -/
def VerifyPrimaryIP_run (devices : List Device)
    (location device_role device_type : Option (List Selector)) :
    List LogRecord :=
  let fd := filter_devices devices location device_role device_type
  fd.1 ++ fd.2.flatMap verifyPrimaryIPDevice

/-- `VerifyHasRack.run`: the filter diagnostics, then one record per
filtered device. -/
def VerifyHasRack_run (devices : List Device)
    (location device_role device_type : Option (List Selector)) :
    List LogRecord :=
  let fd := filter_devices devices location device_role device_type
  fd.1 ++ fd.2.flatMap verifyHasRackDevice

/-- `VerifyCircuitTermination.run`: iterates all circuits (no filter),
aborting at the first raised error. -/
def VerifyCircuitTermination_run (circuits : List Circuit) :
    List LogRecord × Option JobError :=
  runItems verifyCircuitOne circuits

/-! ## Job runs as inventory-state transitions

The module only reads the inventory, so each job, seen as a transition on
the snapshot, returns it unchanged alongside its log output. -/

/-- `VerifyHostnames` as a transition on the inventory snapshot. -/
def VerifyHostnames_step (inv : Inventory)
    (location device_role device_type : Option (List Selector))
    (hostname_regex : RegexParam) :
    Inventory × (List LogRecord × Option JobError) :=
  (inv, VerifyHostnames_run inv.devices location device_role device_type hostname_regex)

/-- `VerifyPlatform` as a transition on the inventory snapshot. -/
def VerifyPlatform_step (inv : Inventory)
    (location device_role device_type : Option (List Selector)) :
    Inventory × List LogRecord :=
  (inv, VerifyPlatform_run inv.devices location device_role device_type)

/-- `VerifyPrimaryIP` as a transition on the inventory snapshot. -/
def VerifyPrimaryIP_step (inv : Inventory)
    (location device_role device_type : Option (List Selector)) :
    Inventory × List LogRecord :=
  (inv, VerifyPrimaryIP_run inv.devices location device_role device_type)

/-- `VerifyHasRack` as a transition on the inventory snapshot. -/
def VerifyHasRack_step (inv : Inventory)
    (location device_role device_type : Option (List Selector)) :
    Inventory × List LogRecord :=
  (inv, VerifyHasRack_run inv.devices location device_role device_type)

/-- `VerifyCircuitTermination` as a transition on the inventory snapshot. -/
def VerifyCircuitTermination_step (inv : Inventory) :
    Inventory × (List LogRecord × Option JobError) :=
  (inv, VerifyCircuitTermination_run inv.circuits)

/-! ## Concrete example inventory (specification section 8) -/

/-- The device named `"sw-01"` of the specification's hostname example. -/
def swDevice : Device :=
  { id := 1, name := some "sw-01", platform := none, primary_ip := none,
    rack := none, virtual_chassis := none, location := 0, role := 0,
    device_type := 0 }

/-- The device named `"rtr-02"` of the specification's hostname example. -/
def rtrDevice : Device :=
  { id := 2, name := some "rtr-02", platform := none, primary_ip := none,
    rack := none, virtual_chassis := none, location := 0, role := 0,
    device_type := 0 }

/-- A virtual-chassis master device (its chassis' `master_id` equals its
own id) carrying a primary IP. -/
def chassisMasterDevice : Device :=
  { id := 3, name := some "stack-01", platform := none,
    primary_ip := some "10.0.0.1/24", rack := none,
    virtual_chassis := some { master_id := some 3 }, location := 0,
    role := 0, device_type := 0 }

/-- A non-master member of the same virtual chassis, with a primary IP
set: the Primary-IP rule must still skip it silently. -/
def chassisMemberDevice : Device :=
  { id := 4, name := some "stack-02", platform := none,
    primary_ip := some "10.0.0.2/24", rack := none,
    virtual_chassis := some { master_id := some 3 }, location := 0,
    role := 0, device_type := 0 }

/-- A circuit whose A-side termination exists but has no path. -/
def circuitUnterminated : Circuit :=
  { id := 10, termination_a := some { path := none } }

/-- A circuit terminated on `sw-01:Gi0/1` whose destination interface has
no IP addresses. -/
def circuitNoIP : Circuit :=
  ⟨11, some ⟨some ⟨⟨"Gi0/1", some swDevice, []⟩⟩⟩⟩

/-- A circuit terminated on `sw-01:Gi0/2` whose destination interface has
one IP address. -/
def circuitWithIP : Circuit :=
  ⟨12, some ⟨some ⟨⟨"Gi0/2", some swDevice, [⟨"192.0.2.1/31"⟩]⟩⟩⟩⟩

/-- A circuit with no A-side termination object at all: dereferencing it
raises an `AttributeError`. -/
def circuitNoTermination : Circuit :=
  { id := 13, termination_a := none }

/-- A circuit whose path's destination has no device: reading
`destination.device.name` raises an `AttributeError`. -/
def circuitOrphanDestination : Circuit :=
  ⟨14, some ⟨some ⟨⟨"Gi0/3", none, []⟩⟩⟩⟩

/-- A device with no name: `re.search(pattern, None)` raises a
`TypeError` in the hostname job. -/
def namelessDevice : Device :=
  { id := 5, name := none, platform := none, primary_ip := none,
    rack := none, virtual_chassis := none, location := 0, role := 0,
    device_type := 0 }

/-! ## Regex search lemmas -/

/-- Unfolding of the whole-string matcher on a cons cell. -/
theorem rmatchFull_cons (r : Regex) (c : Char) (t : List Char) :
    rmatchFull r (c :: t) = rmatchFull (rderiv r c) t := by
  simp [rmatchFull, List.foldl_cons]

/-- The leading-segment matcher succeeds exactly when the regex fully
matches some leading segment of the input. -/
theorem matchPref_iff (r : Regex) (s : List Char) :
    matchPref r s = true ↔
      ∃ mid post, s = mid ++ post ∧ rmatchFull r mid = true := by
  induction s generalizing r with
  | nil =>
    constructor
    · intro h
      exact ⟨[], [], rfl, h⟩
    · rintro ⟨mid, post, heq, h⟩
      rcases List.append_eq_nil.mp heq.symm with ⟨h1, h2⟩
      subst h1
      exact h
  | cons c cs ih =>
    constructor
    · intro h
      simp only [matchPref, Bool.or_eq_true] at h
      rcases h with h | h
      · exact ⟨[], c :: cs, rfl, h⟩
      · obtain ⟨mid, post, heq, hm⟩ := (ih (rderiv r c)).mp h
        exact ⟨c :: mid, post, by simp [heq], by simpa [rmatchFull_cons] using hm⟩
    · rintro ⟨mid, post, heq, hm⟩
      simp only [matchPref, Bool.or_eq_true]
      cases mid with
      | nil =>
        exact Or.inl hm
      | cons m ms =>
        simp only [List.cons_append, List.cons.injEq] at heq
        obtain ⟨hc, hcs⟩ := heq
        subst hc
        refine Or.inr ((ih (rderiv r c)).mpr ?_)
        exact ⟨ms, post, hcs, by simpa [rmatchFull_cons] using hm⟩

/-- The unanchored search succeeds exactly when the leading-segment match
succeeds at some suffix of the input. -/
theorem searchSomewhere_iff (r : Regex) (s : List Char) :
    searchSomewhere r s = true ↔
      ∃ pre rest, s = pre ++ rest ∧ matchPref r rest = true := by
  induction s with
  | nil =>
    constructor
    · intro h
      exact ⟨[], [], rfl, h⟩
    · rintro ⟨pre, rest, heq, h⟩
      rcases List.append_eq_nil.mp heq.symm with ⟨h1, h2⟩
      subst h1; subst h2
      exact h
  | cons c cs ih =>
    constructor
    · intro h
      simp only [searchSomewhere, Bool.or_eq_true] at h
      rcases h with h | h
      · exact ⟨[], c :: cs, rfl, h⟩
      · obtain ⟨pre, rest, heq, hm⟩ := ih.mp h
        exact ⟨c :: pre, rest, by simp [heq], hm⟩
    · rintro ⟨pre, rest, heq, h⟩
      simp only [searchSomewhere, Bool.or_eq_true]
      cases pre with
      | nil =>
        simp only [List.nil_append] at heq
        subst heq
        exact Or.inl h
      | cons p ps =>
        simp only [List.cons_append, List.cons.injEq] at heq
        obtain ⟨hc, hcs⟩ := heq
        subst hc
        exact Or.inr (ih.mpr ⟨ps, rest, hcs, h⟩)

/-- The unanchored search succeeds exactly when the regex fully matches
some (possibly empty) segment of the input starting anywhere: the
partial-match semantics of `re.search`. -/
theorem searchSomewhere_iff_segment (r : Regex) (s : List Char) :
    searchSomewhere r s = true ↔
      ∃ pre mid post, s = pre ++ (mid ++ post) ∧ rmatchFull r mid = true := by
  rw [searchSomewhere_iff]
  constructor
  · rintro ⟨pre, rest, heq, h⟩
    obtain ⟨mid, post, heq2, hm⟩ := (matchPref_iff r rest).mp h
    exact ⟨pre, mid, post, by simp [heq, heq2], hm⟩
  · rintro ⟨pre, mid, post, heq, hm⟩
    exact ⟨pre, mid ++ post, heq, (matchPref_iff r (mid ++ post)).mpr ⟨mid, post, rfl, hm⟩⟩

/-! ## Claim theorems -/

/-- C5: filtering with an empty or absent selector for a dimension yields
the same result (diagnostics and devices) as applying no selector for that
dimension; with all three selectors empty or absent the entire input
collection is returned unchanged and no diagnostic is logged. -/
theorem filter_devices_empty_selector_identity :
    (∀ devs : List Device, filter_devices devs none none none = ([], devs)) ∧
    (∀ (devs : List Device) (r t : Option (List Selector)),
       filter_devices devs (some []) r t = filter_devices devs none r t) ∧
    (∀ (devs : List Device) (l t : Option (List Selector)),
       filter_devices devs l (some []) t = filter_devices devs l none t) ∧
    (∀ (devs : List Device) (l r : Option (List Selector)),
       filter_devices devs l r (some []) = filter_devices devs l r none) ∧
    (∀ devs : List Device,
       filter_devices devs (some []) (some []) (some []) = ([], devs)) :=
  ⟨fun _ => rfl, fun _ _ _ => rfl, fun _ _ _ => rfl, fun _ _ _ => rfl,
   fun _ => rfl⟩

/-- C6: a device is in the filter's result exactly when it is in the input
and, for each dimension whose selector is truthy (present and non-empty),
its value for that dimension is among the selector's identifiers. -/
theorem filter_devices_mem_iff (devs : List Device)
    (l r t : Option (List Selector)) (d : Device) :
    d ∈ (filter_devices devs l r t).2 ↔
      d ∈ devs ∧
      (selTruthy l = true → d.location ∈ selIds l) ∧
      (selTruthy r = true → d.role ∈ selIds r) ∧
      (selTruthy t = true → d.device_type ∈ selIds t) := by
  unfold filter_devices
  cases hl : selTruthy l <;> cases hr : selTruthy r <;> cases ht : selTruthy t <;>
    simp [hl, hr, ht, List.mem_filter, and_assoc] <;> tauto

/-- C6 witness: instantiating the membership characterization on a
one-device inventory with a matching location selector. -/
theorem filter_devices_mem_iff_witness :
    swDevice ∈ (filter_devices [swDevice]
      (some [{ id := 0, name := some "HQ", slug := "hq" }]) none none).2 := by
  refine (filter_devices_mem_iff [swDevice]
    (some [{ id := 0, name := some "HQ", slug := "hq" }]) none none swDevice).mpr ?_
  refine ⟨by simp, ?_, ?_, ?_⟩
  · intro _
    simp [selIds, swDevice]
  · intro h
    exact absurd h (by simp [selTruthy])
  · intro h
    exact absurd h (by simp [selTruthy])

/-- C7: the filter emits exactly one `debug` diagnostic per truthy selector
(naming that selector's members via `normalize`), in location, role, type
order, and nothing else; and its only other output is the narrowed device
list, a sublist of the input (an empty result is possible and harmless). -/
theorem filter_devices_diagnostics (devs : List Device)
    (l r t : Option (List Selector)) :
    (filter_devices devs l r t).1 =
      (if selTruthy l then
        [⟨Severity.debug, "Filter locations: " ++ normalize (l.getD []), none⟩]
       else []) ++
      (if selTruthy r then
        [⟨Severity.debug, "Filter device roles: " ++ normalize (r.getD []), none⟩]
       else []) ++
      (if selTruthy t then
        [⟨Severity.debug, "Filter device types: " ++ normalize (t.getD []), none⟩]
       else []) ∧
    ((filter_devices devs l r t).1).length =
      ((if selTruthy l then 1 else 0) + (if selTruthy r then 1 else 0) +
        (if selTruthy t then 1 else 0) : Nat) ∧
    ((filter_devices devs l r t).2).Sublist devs := by
  refine ⟨?_, ?_, ?_⟩
  · unfold filter_devices
    cases hl : selTruthy l <;> cases hr : selTruthy r <;> cases ht : selTruthy t <;>
      simp [hl, hr, ht]
  · unfold filter_devices
    cases hl : selTruthy l <;> cases hr : selTruthy r <;> cases ht : selTruthy t <;>
      simp [hl, hr, ht]
  · unfold filter_devices
    cases hl : selTruthy l <;> cases hr : selTruthy r <;> cases ht : selTruthy t <;>
      simp [hl, hr, ht]

/-- Helper: a regex that accepts the empty string makes the leading-segment
search, hence the unanchored search, succeed on any input. -/
theorem searchSomewhere_of_nullable (r : Regex) (h : nullable r = true)
    (s : List Char) : searchSomewhere r s = true := by
  cases s with
  | nil => simpa [searchSomewhere, matchPref] using h
  | cons c cs => simp [searchSomewhere, matchPref, h]

/-- C1: the Primary-IP rule emits no record at all for a device that
belongs to a virtual chassis without being its master (regardless of its
primary IP); every other device yields exactly one record — a pass record
naming the primary IP when one is set, else the fail record — and the
rule's run is the filter diagnostics followed by exactly these per-device
records. -/
theorem verifyPrimaryIP_records :
    (∀ (d : Device) (vc : VirtualChassis),
       d.virtual_chassis = some vc → vc.master_id ≠ some d.id →
       verifyPrimaryIPDevice d = []) ∧
    (∀ d : Device,
       (∀ vc, d.virtual_chassis = some vc → vc.master_id = some d.id) →
       (d.primary_ip = none →
          verifyPrimaryIPDevice d =
            [⟨Severity.warning, "No primary IP is defined", some d.id⟩]) ∧
       (∀ ip, d.primary_ip = some ip →
          verifyPrimaryIPDevice d =
            [⟨Severity.info, "Primary IP is defined (" ++ ip ++ ")",
              some d.id⟩])) ∧
    (∀ (devs : List Device) (l r t : Option (List Selector)),
       VerifyPrimaryIP_run devs l r t =
         (filter_devices devs l r t).1 ++
           ((filter_devices devs l r t).2).flatMap verifyPrimaryIPDevice) := by
  refine ⟨?_, ?_, fun _ _ _ _ => rfl⟩
  · intro d vc hvc hne
    simp [verifyPrimaryIPDevice, hvc, hne]
  · intro d hmaster
    constructor
    · intro hip
      cases hvc : d.virtual_chassis with
      | none => simp [verifyPrimaryIPDevice, hvc, hip]
      | some vc => simp [verifyPrimaryIPDevice, hvc, hip, hmaster vc hvc]
    · intro ip hip
      cases hvc : d.virtual_chassis with
      | none => simp [verifyPrimaryIPDevice, hvc, hip]
      | some vc => simp [verifyPrimaryIPDevice, hvc, hip, hmaster vc hvc]

/-- C1 witness: the non-master chassis member (which has a primary IP set)
yields no record, while the chassis master yields exactly its pass
record. -/
theorem verifyPrimaryIP_records_witness :
    verifyPrimaryIPDevice chassisMemberDevice = [] ∧
    verifyPrimaryIPDevice chassisMasterDevice =
      [⟨Severity.info, "Primary IP is defined (10.0.0.1/24)",
        some chassisMasterDevice.id⟩] := by
  constructor
  · exact verifyPrimaryIP_records.1 chassisMemberDevice { master_id := some 3 }
      rfl (by decide)
  · exact (verifyPrimaryIP_records.2.1 chassisMasterDevice
      (fun vc h => by injection h with h2; rw [← h2]; rfl)).2 "10.0.0.1/24" rfl

/-- C3: the hostname rule classifies a named device as compliant exactly
when `re.search` succeeds, where an unanchored search succeeds exactly when
the regex fully matches some segment of the name starting at any position
(partial match, not full-string); the default `".*"` pattern passes every
named device; and on the devices `sw-01`, `rtr-02` the `^sw-` pattern
produces exactly one pass record and one fail record — although `^sw-`
does not full-string-match `sw-01`. -/
theorem verifyHostnames_partial_match :
    (∀ (p : RegexParam) (d : Device) (n : String), d.name = some n →
       reSearch p n = true →
       verifyHostnameDevice p d =
         .ok [⟨Severity.info, "Hostname is compliant.", some d.id⟩]) ∧
    (∀ (p : RegexParam) (d : Device) (n : String), d.name = some n →
       reSearch p n = false →
       verifyHostnameDevice p d =
         .ok [⟨Severity.warning, "Hostname is not compliant.", some d.id⟩]) ∧
    (∀ (p : RegexParam) (s : String), p.anchored = false →
       (reSearch p s = true ↔
         ∃ pre mid post, s.toList = pre ++ (mid ++ post) ∧
           rmatchFull p.r mid = true)) ∧
    (∀ (d : Device) (n : String), d.name = some n →
       verifyHostnameDevice defaultHostnameRegex d =
         .ok [⟨Severity.info, "Hostname is compliant.", some d.id⟩]) ∧
    (VerifyHostnames_run [swDevice, rtrDevice] none none none swDashRegex =
      ([⟨Severity.info, "Using the regular expression: ^sw-", none⟩,
        ⟨Severity.info, "Hostname is compliant.", some 1⟩,
        ⟨Severity.warning, "Hostname is not compliant.", some 2⟩], none)) ∧
    reSearch swDashRegex "sw-01" = true ∧
    rmatchFull swDashRegex.r "sw-01".toList = false := by
  refine ⟨?_, ?_, ?_, ?_, by decide, by decide, by decide⟩
  · intro p d n hn hs
    simp [verifyHostnameDevice, hn, hs]
  · intro p d n hn hs
    simp [verifyHostnameDevice, hn, hs]
  · intro p s hpa
    rw [reSearch, hpa]
    simpa using searchSomewhere_iff_segment p.r s.toList
  · intro d n hn
    have hsearch : reSearch defaultHostnameRegex n = true := by
      rw [reSearch]
      simpa [defaultHostnameRegex] using
        searchSomewhere_of_nullable (Regex.star Regex.dot) rfl n.toList
    simp [verifyHostnameDevice, hn, hsearch]

/-- C3 witness: instantiating the classification on the example devices
and the example pattern. -/
theorem verifyHostnames_partial_match_witness :
    verifyHostnameDevice swDashRegex swDevice =
      .ok [⟨Severity.info, "Hostname is compliant.", some swDevice.id⟩] ∧
    verifyHostnameDevice swDashRegex rtrDevice =
      .ok [⟨Severity.warning, "Hostname is not compliant.",
        some rtrDevice.id⟩] :=
  ⟨verifyHostnames_partial_match.1 swDashRegex swDevice "sw-01" rfl (by decide),
   verifyHostnames_partial_match.2.1 swDashRegex rtrDevice "rtr-02" rfl
     (by decide)⟩

/-- C2: per circuit, a termination without a path yields exactly the one
fail record and nothing more (the IP-assignment check is never reached); a
path whose destination has no IP addresses yields exactly the termination
pass record followed by the IP fail record; a path with at least one IP
yields the pass record followed by the IP pass record naming the first
address; and the rule's run is exactly the per-circuit iteration. -/
theorem verifyCircuit_records :
    (∀ (c : Circuit) (t : Termination),
       c.termination_a = some t → t.path = none →
       verifyCircuitOne c =
         .ok [⟨Severity.warning, "Circuit is not terminated", some c.id⟩]) ∧
    (∀ (c : Circuit) (t : Termination) (p : CircuitPath) (dev : Device)
       (dn : String),
       c.termination_a = some t → t.path = some p →
       p.destination.device = some dev → dev.name = some dn →
       p.destination.ip_addresses = [] →
       verifyCircuitOne c =
         .ok [⟨Severity.info,
                "Circuit terminated on " ++ dn ++ ":" ++ p.destination.name,
                some c.id⟩,
              ⟨Severity.warning, "IP address is not assigned", some c.id⟩]) ∧
    (∀ (c : Circuit) (t : Termination) (p : CircuitPath) (dev : Device)
       (dn : String) (ip : IPAddress) (rest : List IPAddress),
       c.termination_a = some t → t.path = some p →
       p.destination.device = some dev → dev.name = some dn →
       p.destination.ip_addresses = ip :: rest →
       verifyCircuitOne c =
         .ok [⟨Severity.info,
                "Circuit terminated on " ++ dn ++ ":" ++ p.destination.name,
                some c.id⟩,
              ⟨Severity.info, "IP address is assigned (" ++ ip.address ++ ")",
                some c.id⟩]) ∧
    (∀ circuits : List Circuit,
       VerifyCircuitTermination_run circuits =
         runItems verifyCircuitOne circuits) := by
  refine ⟨?_, ?_, ?_, fun _ => rfl⟩
  · intro c t hta hp
    simp [verifyCircuitOne, hta, hp]
  · intro c t p dev dn hta hp hdev hdn hip
    simp [verifyCircuitOne, hta, hp, hdev, hdn, hip]
  · intro c t p dev dn ip rest hta hp hdev hdn hip
    simp [verifyCircuitOne, hta, hp, hdev, hdn, hip]

/-- C2 witness: the three per-circuit shapes on the concrete example
circuits. -/
theorem verifyCircuit_records_witness :
    verifyCircuitOne circuitUnterminated =
      .ok [⟨Severity.warning, "Circuit is not terminated",
        some circuitUnterminated.id⟩] ∧
    verifyCircuitOne circuitNoIP =
      .ok [⟨Severity.info, "Circuit terminated on sw-01:Gi0/1",
        some circuitNoIP.id⟩,
        ⟨Severity.warning, "IP address is not assigned",
          some circuitNoIP.id⟩] ∧
    verifyCircuitOne circuitWithIP =
      .ok [⟨Severity.info, "Circuit terminated on sw-01:Gi0/2",
        some circuitWithIP.id⟩,
        ⟨Severity.info, "IP address is assigned (192.0.2.1/31)",
          some circuitWithIP.id⟩] :=
  ⟨verifyCircuit_records.1 circuitUnterminated ⟨none⟩ rfl rfl,
   verifyCircuit_records.2.1 circuitNoIP ⟨some ⟨⟨"Gi0/1", some swDevice, []⟩⟩⟩
     ⟨⟨"Gi0/1", some swDevice, []⟩⟩ swDevice "sw-01" rfl rfl rfl rfl rfl,
   verifyCircuit_records.2.2.1 circuitWithIP
     ⟨some ⟨⟨"Gi0/2", some swDevice, [⟨"192.0.2.1/31"⟩]⟩⟩⟩
     ⟨⟨"Gi0/2", some swDevice, [⟨"192.0.2.1/31"⟩]⟩⟩ swDevice "sw-01"
     ⟨"192.0.2.1/31"⟩ [] rfl rfl rfl rfl rfl⟩

/-- C4 counterexample: `VerifyHostnames.run` on an empty device collection
classifies zero items yet emits one log record — the preamble
`Using the regular expression: ...` line — so no rule-run record total can
equal the number of classified items with "no additional preamble
records". -/
theorem one_record_per_item_counterexample :
    (VerifyHostnames_run [] none none none defaultHostnameRegex).1 =
      [⟨Severity.info, "Using the regular expression: .*", none⟩] ∧
    ((VerifyHostnames_run [] none none none defaultHostnameRegex).1).length
      = 1 := by
  exact ⟨rfl, rfl⟩

/-- Helper: flattening a map whose every image is a singleton list keeps
the length. -/
theorem flatMap_singleton_length {α : Type} (f : α → List LogRecord)
    (h : ∀ x : α, (f x).length = 1) (xs : List α) :
    (xs.flatMap f).length = xs.length := by
  induction xs with
  | nil => rfl
  | cons x xs ih => simp [List.flatMap_cons, h, ih]; omega

/-- C4 (amended): no rule batches or emits aggregate summary records, and
the per-item record counts are: exactly one for the platform and rack
rules (so their run totals are the diagnostics count plus the item count),
exactly one for the hostname rule per named device — besides its one
preamble record —, at most one for the primary-IP rule (zero exactly for
skipped non-master chassis members), and one or two for the circuit
rule. -/
theorem per_item_record_counts :
    (∀ d : Device, (verifyPlatformDevice d).length = 1) ∧
    (∀ d : Device, (verifyHasRackDevice d).length = 1) ∧
    (∀ (p : RegexParam) (d : Device) (n : String), d.name = some n →
       ∃ rec, verifyHostnameDevice p d = .ok [rec]) ∧
    (∀ d : Device, (verifyPrimaryIPDevice d).length ≤ 1) ∧
    (∀ (c : Circuit) (rs : List LogRecord), verifyCircuitOne c = .ok rs →
       rs.length = 1 ∨ rs.length = 2) ∧
    (∀ (devs : List Device) (l r t : Option (List Selector)),
       (VerifyPlatform_run devs l r t).length =
         ((filter_devices devs l r t).1).length +
           ((filter_devices devs l r t).2).length) ∧
    (∀ (devs : List Device) (l r t : Option (List Selector)),
       (VerifyHasRack_run devs l r t).length =
         ((filter_devices devs l r t).1).length +
           ((filter_devices devs l r t).2).length) := by
  refine ⟨?_, ?_, ?_, ?_, ?_, ?_, ?_⟩
  · intro d
    cases h : d.platform <;> simp [verifyPlatformDevice, h]
  · intro d
    cases h : d.rack <;> simp [verifyHasRackDevice, h]
  · intro p d n hn
    cases hs : reSearch p n with
    | false =>
      exact ⟨⟨Severity.warning, "Hostname is not compliant.", some d.id⟩,
        by simp [verifyHostnameDevice, hn, hs]⟩
    | true =>
      exact ⟨⟨Severity.info, "Hostname is compliant.", some d.id⟩,
        by simp [verifyHostnameDevice, hn, hs]⟩
  · intro d
    cases hvc : d.virtual_chassis with
    | none =>
      cases hip : d.primary_ip <;> simp [verifyPrimaryIPDevice, hvc, hip]
    | some vc =>
      by_cases hm : vc.master_id = some d.id
      · cases hip : d.primary_ip <;>
          simp [verifyPrimaryIPDevice, hvc, hip, hm]
      · simp [verifyPrimaryIPDevice, hvc, hm]
  · intro c rs h
    obtain ⟨cid, ta⟩ := c
    cases ta with
    | none => simp [verifyCircuitOne] at h
    | some term =>
      cases hp : term.path with
      | none =>
        simp [verifyCircuitOne, hp] at h
        simp [← h]
      | some path =>
        cases hd : path.destination.device with
        | none => simp [verifyCircuitOne, hp, hd] at h
        | some dev =>
          cases hi : path.destination.ip_addresses with
          | nil =>
            simp [verifyCircuitOne, hp, hd, hi] at h
            simp [← h]
          | cons ip rest =>
            simp [verifyCircuitOne, hp, hd, hi] at h
            simp [← h]
  · intro devs l r t
    simp only [VerifyPlatform_run, List.length_append]
    congr 1
    exact flatMap_singleton_length verifyPlatformDevice
      (fun d => by cases h : d.platform <;> simp [verifyPlatformDevice, h]) _
  · intro devs l r t
    simp only [VerifyHasRack_run, List.length_append]
    congr 1
    exact flatMap_singleton_length verifyHasRackDevice
      (fun d => by cases h : d.rack <;> simp [verifyHasRackDevice, h]) _

/-- C4 witness: the per-item counts instantiated on the example devices
and circuits. -/
theorem per_item_record_counts_witness :
    (verifyPlatformDevice swDevice).length = 1 ∧
    (∃ rec, verifyHostnameDevice swDashRegex swDevice = .ok [rec]) ∧
    ((VerifyPlatform_run [swDevice, rtrDevice] none none none).length =
      (filter_devices [swDevice, rtrDevice] none none none).1.length +
        (filter_devices [swDevice, rtrDevice] none none none).2.length) :=
  ⟨per_item_record_counts.1 swDevice,
   per_item_record_counts.2.2.1 swDashRegex swDevice "sw-01" rfl,
   per_item_record_counts.2.2.2.2.2.1 [swDevice, rtrDevice] none none none⟩

/-- C8: every job, seen as a transition on the inventory snapshot it
reads, returns the snapshot unchanged: the module never creates, mutates
or destroys an inventory entity, its only outputs are log records. -/
theorem jobs_preserve_inventory :
    (∀ (inv : Inventory) (l r t : Option (List Selector)) (p : RegexParam),
       (VerifyHostnames_step inv l r t p).1 = inv) ∧
    (∀ (inv : Inventory) (l r t : Option (List Selector)),
       (VerifyPlatform_step inv l r t).1 = inv) ∧
    (∀ (inv : Inventory) (l r t : Option (List Selector)),
       (VerifyPrimaryIP_step inv l r t).1 = inv) ∧
    (∀ (inv : Inventory) (l r t : Option (List Selector)),
       (VerifyHasRack_step inv l r t).1 = inv) ∧
    (∀ inv : Inventory, (VerifyCircuitTermination_step inv).1 = inv) :=
  ⟨fun _ _ _ _ _ => rfl, fun _ _ _ _ => rfl, fun _ _ _ _ => rfl,
   fun _ _ _ _ => rfl, fun _ => rfl⟩

/-- Helper: the only error the circuit job can raise is the
`AttributeError` of a `None` dereference. -/
theorem verifyCircuitOne_error_attr (c : Circuit) (e : JobError)
    (h : verifyCircuitOne c = .error e) : e = .attributeError := by
  obtain ⟨cid, ta⟩ := c
  cases ta with
  | none =>
    simp only [verifyCircuitOne, Except.error.injEq] at h
    exact h.symm
  | some term =>
    cases hp : term.path with
    | none => simp [verifyCircuitOne, hp] at h
    | some path =>
      cases hd : path.destination.device with
      | none =>
        simp only [verifyCircuitOne, hp, hd, Except.error.injEq] at h
        exact h.symm
      | some dev =>
        cases hi : path.destination.ip_addresses with
        | nil => simp [verifyCircuitOne, hp, hd, hi] at h
        | cons ip rest => simp [verifyCircuitOne, hp, hd, hi] at h

/-- C9: malformed inventory data aborts the job run as a raised error, and
is never converted into a fail-verdict record: a nameless device makes the
hostname loop body raise `TypeError` (and any such device in the collection
makes the whole run end with that error); a path destination without a
device makes the circuit loop body raise `AttributeError` (and any circuit
missing its termination object or its destination device makes the whole
run end with that error). -/
theorem malformed_data_aborts :
    (∀ (p : RegexParam) (d : Device), d.name = none →
       verifyHostnameDevice p d = .error .typeError) ∧
    (∀ (p : RegexParam) (devs : List Device),
       (∃ d ∈ devs, d.name = none) →
       (runItems (verifyHostnameDevice p) devs).2 = some .typeError) ∧
    (∀ (c : Circuit) (t : Termination) (path : CircuitPath),
       c.termination_a = some t → t.path = some path →
       path.destination.device = none →
       verifyCircuitOne c = .error .attributeError) ∧
    (∀ circuits : List Circuit,
       (∃ c ∈ circuits, c.termination_a = none ∨
          ∃ t path, c.termination_a = some t ∧ t.path = some path ∧
            path.destination.device = none) →
       (VerifyCircuitTermination_run circuits).2 = some .attributeError) := by
  refine ⟨?_, ?_, ?_, ?_⟩
  · intro p d hn
    simp [verifyHostnameDevice, hn]
  · intro p devs
    induction devs with
    | nil => rintro ⟨d, hd, _⟩; simp at hd
    | cons d ds ih =>
      rintro ⟨d0, hd0, hname⟩
      simp only [List.mem_cons] at hd0
      rcases hd0 with rfl | hmem
      · simp [runItems, verifyHostnameDevice, hname]
      · cases hn : d.name with
        | none => simp [runItems, verifyHostnameDevice, hn]
        | some n =>
          cases hs : reSearch p n <;>
            simpa [runItems, verifyHostnameDevice, hn, hs] using
              ih ⟨d0, hmem, hname⟩
  · intro c t path hta hp hd
    simp [verifyCircuitOne, hta, hp, hd]
  · intro circuits
    induction circuits with
    | nil => rintro ⟨c, hc, _⟩; simp at hc
    | cons c cs ih =>
      rintro ⟨c0, hc0, hbad⟩
      simp only [List.mem_cons] at hc0
      rcases hc0 with rfl | hmem
      · rcases hbad with hnone | ⟨t, path, hta, hp, hd⟩
        · simp [VerifyCircuitTermination_run, runItems, verifyCircuitOne,
            hnone]
        · simp [VerifyCircuitTermination_run, runItems, verifyCircuitOne,
            hta, hp, hd]
      · cases hco : verifyCircuitOne c with
        | error e =>
          have he := verifyCircuitOne_error_attr c e hco
          subst he
          simp [VerifyCircuitTermination_run, runItems, hco]
        | ok rs =>
          simpa [VerifyCircuitTermination_run, runItems, hco] using
            ih ⟨c0, hmem, hbad⟩

/-- C9 witness: the nameless device and the orphan-destination circuit
raise, and runs containing them end with the corresponding error. -/
theorem malformed_data_aborts_witness :
    verifyHostnameDevice defaultHostnameRegex namelessDevice =
      .error .typeError ∧
    (runItems (verifyHostnameDevice defaultHostnameRegex)
      [swDevice, namelessDevice]).2 = some .typeError ∧
    verifyCircuitOne circuitOrphanDestination = .error .attributeError ∧
    (VerifyCircuitTermination_run [circuitWithIP, circuitOrphanDestination]).2
      = some .attributeError :=
  ⟨malformed_data_aborts.1 defaultHostnameRegex namelessDevice rfl,
   malformed_data_aborts.2.1 defaultHostnameRegex [swDevice, namelessDevice]
     ⟨namelessDevice, by simp, rfl⟩,
   malformed_data_aborts.2.2.1 circuitOrphanDestination
     ⟨some ⟨⟨"Gi0/3", none, []⟩⟩⟩ ⟨⟨"Gi0/3", none, []⟩⟩ rfl rfl rfl,
   malformed_data_aborts.2.2.2 [circuitWithIP, circuitOrphanDestination]
     ⟨circuitOrphanDestination, by simp,
       Or.inr ⟨⟨some ⟨⟨"Gi0/3", none, []⟩⟩⟩, ⟨⟨"Gi0/3", none, []⟩⟩,
         rfl, rfl, rfl⟩⟩⟩

/-- C10: a circuit whose A-side termination object is missing makes the
rule raise `AttributeError` with no record emitted for that circuit — it
does not log the `Circuit is not terminated` fail verdict; that fail
record appears in a circuit's successful output exactly when a termination
object exists but carries no path. -/
theorem circuit_missing_termination_raises :
    (∀ c : Circuit, c.termination_a = none →
       verifyCircuitOne c = .error .attributeError) ∧
    (∀ (c : Circuit) (rs : List LogRecord), verifyCircuitOne c = .ok rs →
       ((⟨Severity.warning, "Circuit is not terminated", some c.id⟩ :
          LogRecord) ∈ rs ↔
         ∃ t, c.termination_a = some t ∧ t.path = none)) := by
  constructor
  · intro c hta
    simp [verifyCircuitOne, hta]
  · intro c rs h
    obtain ⟨cid, ta⟩ := c
    cases ta with
    | none => simp [verifyCircuitOne] at h
    | some term =>
      cases hp : term.path with
      | none =>
        simp only [verifyCircuitOne, hp, Except.ok.injEq] at h
        simp [← h, hp]
      | some path =>
        cases hd : path.destination.device with
        | none => simp [verifyCircuitOne, hp, hd] at h
        | some dev =>
          cases hi : path.destination.ip_addresses with
          | nil =>
            simp only [verifyCircuitOne, hp, hd, hi, Except.ok.injEq] at h
            simp [← h, hp]
          | cons ip rest =>
            simp only [verifyCircuitOne, hp, hd, hi, Except.ok.injEq] at h
            simp [← h, hp]

/-- C10 witness: the termination-less circuit raises with no record; the
pathless circuit's single successful record is the fail verdict. -/
theorem circuit_missing_termination_raises_witness :
    verifyCircuitOne circuitNoTermination = .error .attributeError ∧
    ((⟨Severity.warning, "Circuit is not terminated",
        some circuitUnterminated.id⟩ : LogRecord) ∈
      [⟨Severity.warning, "Circuit is not terminated",
        some circuitUnterminated.id⟩] ↔
      ∃ t, circuitUnterminated.termination_a = some t ∧ t.path = none) :=
  ⟨circuit_missing_termination_raises.1 circuitNoTermination rfl,
   circuit_missing_termination_raises.2 circuitUnterminated
     [⟨Severity.warning, "Circuit is not terminated",
       some circuitUnterminated.id⟩] rfl⟩

end DataQuality
